import Mathlib

/-!
Shallow embedding of `src/squiggy/api/api_util.py` (squiggy's access-decision
layer): authorization predicates over already-loaded user/entity objects, the
guard decorators wrapping request handlers, the enum feature-flag filter, and
the login-session bootstrap.  Ambient state (the Flask config, the database
session, `current_user`) is passed explicitly; Python truthiness of the values
that flow through `and`/`or` chains is modelled by a small value type.
-/

/-- A Python value as returned by truthiness-propagating expressions such as
`user and (user.id if ...)`: `None`, an `int`, or a `bool`. -/
inductive PyVal where
  | vnone : PyVal
  | vint : Int → PyVal
  | vbool : Bool → PyVal
  deriving DecidableEq

/-- Python truthiness: `None` is falsy, an `int` is truthy iff nonzero, a
`bool` is its own truth value. -/
def PyVal.truthy : PyVal → Bool
  | PyVal.vnone => false
  | PyVal.vint n => n != 0
  | PyVal.vbool b => b

/-- Python truthiness of an optional string (`None` and `''` are falsy). -/
def strOptTruthy : Option String → Bool
  | none => false
  | some s => s != ""

/-- The process-wide Flask configuration mapping (`app.config`), restricted to
the keys this module reads. -/
structure Config where
  feature_flag_whiteboards : Bool

/-- A course record: the predicates only read `course.id`. -/
structure Course where
  id : Int

/-- A user object as the predicates see it.  `hasIdAttr` models the duck-typed
shape test `hasattr(user, 'id')` in `_get_user_id`: when true the object
exposes `.id`, otherwise `.user_id` is used.  `assets` is the user's owned
asset-id collection (read only through the ambient `current_user`). -/
structure User where
  hasIdAttr : Bool
  id : Int
  user_id : Int
  is_admin : Bool
  is_teaching : Bool
  course : Course
  assets : List Int

/-- One element of `asset.users`, the asset's owner list; the code reads only
`.id` of each owner. -/
structure Owner where
  id : Int

/-- An asset record: id, owning course, global visibility flag, owner list. -/
structure Asset where
  id : Int
  course_id : Int
  visible : Bool
  users : List Owner

/-- A comment record: the predicates only read the author id `user_id`. -/
structure Comment where
  user_id : Int

/-- A row of the `users` table as the whiteboard-access SQL reads it. -/
structure DBUser where
  id : Int
  canvas_course_role : String

/-- A row of the `whiteboards` table; `deleted` models
`deleted_at IS NOT NULL` (the soft-delete timestamp being set). -/
structure Whiteboard where
  id : Int
  course_id : Int
  deleted : Bool

/-- The database state visible to the whiteboard-access query: the `users`,
`whiteboards` and `whiteboard_users` tables (the last as
(whiteboard_id, user_id) pairs). -/
structure DB where
  users : List DBUser
  whiteboards : List Whiteboard
  whiteboard_users : List (Int × Int)

/-- Modelled from the spec: `is_admin` from `squiggy.lib.util` is not under
`src/`; per the spec it checks the user's admin flag, and a missing user is
not an admin. -/
def is_admin (user : Option User) : Bool :=
  match user with
  | none => false
  | some u => u.is_admin

/-- Modelled from the spec: `is_teaching` from `squiggy.lib.util` is not under
`src/`; per the spec it checks the user's teaching-role flag, and a missing
user is not teaching. -/
def is_teaching (user : Option User) : Bool :=
  match user with
  | none => false
  | some u => u.is_teaching

/-- The id `_get_user_id` resolves for a present user:
`user.id if hasattr(user, 'id') else user.user_id`. -/
def resolveId (u : User) : Int :=
  if u.hasIdAttr then u.id else u.user_id

/-- `_get_user_id(user)`: `user and (user.id if hasattr(user, 'id') else
user.user_id)`.  A `None` user short-circuits to `None`; otherwise the
resolved id is returned (possibly `0`, which is falsy). -/
def _get_user_id (user : Option User) : PyVal :=
  match user with
  | none => PyVal.vnone
  | some u => PyVal.vint (resolveId u)

/-- ASCII lowercase of one character (the role patterns the SQL matches are
ASCII). -/
def lowerChar (c : Char) : Char :=
  if 'A' ≤ c ∧ c ≤ 'Z' then Char.ofNat (c.toNat + 32) else c

/-- Lowercased character list of a string. -/
def lowerChars (s : String) : List Char :=
  s.toList.map lowerChar

/-- Case-insensitive substring containment, modelling SQL
`x ILIKE '%pat%'`. -/
def ilike (s pat : String) : Bool :=
  decide (List.IsInfix (lowerChars pat) (lowerChars s))

/-- Case-sensitive substring containment, modelling Python
`pat in s` on strings. -/
def containsSub (s pat : String) : Bool :=
  decide (List.IsInfix pat.toList s.toList)

/-- The WHERE condition of the whiteboard-access SQL, for one joined row
(user row `u`, whiteboard row `w`): the JOIN condition `w.id = :whiteboard_id`
together with `u.id = :user_id AND w.course_id = :course_id AND (membership OR
role ILIKE admin/instructor/teacher)`; when `teaching` is false the appended
`AND w.deleted_at IS NULL` clause also applies. -/
def matchesWhiteboardRow (db : DB) (u : DBUser) (w : Whiteboard)
    (user_id course_id : Int) (whiteboard_id : Option Int) (teaching : Bool) : Bool :=
  (some w.id == whiteboard_id) && (u.id == user_id) && (w.course_id == course_id) &&
    (db.whiteboard_users.any (fun p => (some p.1 == whiteboard_id) && (p.2 == u.id))
      || ilike u.canvas_course_role "admin"
      || ilike u.canvas_course_role "instructor"
      || ilike u.canvas_course_role "teacher") &&
    (teaching || !w.deleted)

/-- The whiteboard-access SQL result: `COUNT(DISTINCT(u.id))` over the rows of
`users JOIN whiteboards` satisfying `matchesWhiteboardRow`. -/
def whiteboardQueryCount (db : DB) (user_id course_id : Int)
    (whiteboard_id : Option Int) (teaching : Bool) : Nat :=
  (((db.users.filter
      (fun u => db.whiteboards.any
        (fun w => matchesWhiteboardRow db u w user_id course_id whiteboard_id teaching))).map
    DBUser.id).dedup).length

/-- `can_access_whiteboard(user, whiteboard_id)`: false when the feature flag
is off; true immediately for admins; otherwise, with a truthy resolved user
id, the SQL count decides (`count > 0`), and with no truthy id the result is
false.  The `deleted_at IS NULL` clause is appended only when the user is not
teaching. -/
def can_access_whiteboard (cfg : Config) (db : DB) (user : Option User)
    (whiteboard_id : Option Int) : Bool :=
  if !cfg.feature_flag_whiteboards then false
  else if is_admin user then true
  else
    match user with
    | none => false
    | some u =>
      let user_id := resolveId u
      if user_id = 0 then false
      else decide (0 < whiteboardQueryCount db user_id u.course.id whiteboard_id
        (is_teaching (some u)))

/-- `can_update_asset(user, asset)`: `user.course.id == asset.course_id and
(is_teaching(user) or is_admin(user) or user_id in user_ids)`.  For
`user = None`, Python still evaluates `_get_user_id(None)` and the owner-id
list, then faults with AttributeError on `user.course`; the fault is modelled
as `Option.none`. -/
def can_update_asset (user : Option User) (asset : Asset) : Option Bool :=
  match user with
  | none => none
  | some u =>
    let user_id := resolveId u
    let user_ids := asset.users.map Owner.id
    some (decide (u.course.id = asset.course_id) &&
      (is_teaching (some u) || is_admin (some u) || decide (user_id ∈ user_ids)))

/-- `can_view_asset(asset, user)`: admin → true; no user or course mismatch →
false; otherwise `asset.visible or asset.id in [a.id for a in
current_user.user.assets]`.  The last check reads the AMBIENT session user's
asset list, passed here explicitly as `current_user_assets` (ids of
`current_user.user.assets`), not the `user` parameter's list. -/
def can_view_asset (asset : Asset) (user : Option User)
    (current_user_assets : List Int) : Bool :=
  match user with
  | none => false
  | some u =>
    if u.is_admin then true
    else if u.course.id ≠ asset.course_id then false
    else asset.visible || decide (asset.id ∈ current_user_assets)

/-- `can_delete_comment(comment, user)`: `user_id and (comment.user_id ==
user_id or user.is_admin or user.is_teaching)`.  Per Python `and`, a falsy
`user_id` (`None` for a missing user, `0` for a zero id) is returned as is;
otherwise the boolean `or`-chain is returned. -/
def can_delete_comment (comment : Comment) (user : Option User) : PyVal :=
  match user with
  | none => PyVal.vnone
  | some u =>
    let user_id := resolveId u
    if user_id = 0 then PyVal.vint 0
    else PyVal.vbool (decide (comment.user_id = user_id) || u.is_admin || u.is_teaching)

/-- `can_update_comment(comment, user)`: textually identical to
`can_delete_comment`. -/
def can_update_comment (comment : Comment) (user : Option User) : PyVal :=
  match user with
  | none => PyVal.vnone
  | some u =>
    let user_id := resolveId u
    if user_id = 0 then PyVal.vint 0
    else PyVal.vbool (decide (comment.user_id = user_id) || u.is_admin || u.is_teaching)

/-- What a guard decorator returns to the framework: the wrapped handler's
response, the framework's standard unauthorized response
(`app.login_manager.unauthorized()`), or a bare status dict such as
`{'status': 404}`. -/
inductive Response where
  | fromHandler : Nat → Response
  | unauthorized : Response
  | statusDict : Nat → Response
  deriving DecidableEq

/-- The decorator's whiteboard-id extraction:
`args[0].get('whiteboardId') if len(args) else None`.  Each positional
argument is modelled by its `.get('whiteboardId')` result. -/
def extractWhiteboardId (args : List (Option Int)) : Option Int :=
  match args with
  | [] => none
  | a :: _ => a

/-- `whiteboard_access_required(func)`: the wrapper invokes the handler only
when `can_access_whiteboard(current_user, whiteboard_id)` holds; otherwise it
returns `{'status': 404}` (and logs a warning). -/
def whiteboard_access_required (cfg : Config) (db : DB)
    (current_user : Option User) (handler : List (Option Int) → Response)
    (args : List (Option Int)) : Response :=
  let whiteboard_id := extractWhiteboardId args
  if can_access_whiteboard cfg db current_user whiteboard_id then handler args
  else Response.statusDict 404

/-- `admin_required(func)`: the wrapper invokes the handler only when
`current_user.is_admin`; otherwise it returns the framework's standard
unauthorized response. -/
def admin_required (current_user : User) (handler : Unit → Response) : Response :=
  if current_user.is_admin then handler ()
  else Response.unauthorized

/-- `_filter_per_feature_flag(enums)`: the list unchanged when
`FEATURE_FLAG_WHITEBOARDS` is on, else filtered by
`'whiteboard' not in enum`. -/
def _filter_per_feature_flag (cfg : Config) (enums : List String) : List String :=
  if cfg.feature_flag_whiteboards then enums
  else enums.filter (fun e => !containsSub e "whiteboard")

/-- `activities_type_enums()`.  Modelled from the spec: the registry
`activities_type.enums` lives in `squiggy.models.activity_type`, outside
`src/`; its contents are taken as the parameter `enums`. -/
def activities_type_enums (cfg : Config) (enums : List String) : List String :=
  _filter_per_feature_flag cfg enums

/-- `assets_type_enums()`.  Modelled from the spec: the registry
`assets_type.enums` lives in `squiggy.models.asset`, outside `src/`; its
contents are taken as the parameter `enums`. -/
def assets_type_enums (cfg : Config) (enums : List String) : List String :=
  _filter_per_feature_flag cfg enums

/-- The observable outcome of `start_login_session`: a successful response
(`success b` with `b` true for a redirect, false for the profile JSON; the
cookie attachment is not further modelled, as the claims concern only the
failure paths), a raised `UnauthorizedRequestError` with its message, or a
returned JSON response with a message and an HTTP status. -/
inductive LoginOutcome where
  | success : Bool → LoginOutcome
  | raised : String → LoginOutcome
  | json : String → Nat → LoginOutcome
  deriving DecidableEq

/-- `start_login_session(login_session, redirect_path, tool_id)`.
`authenticated` models `login_user(login_session, remember=True) and
current_user.is_authenticated` (external authentication subsystem);
`user_id` is `login_session.user_id`.  On failure: a truthy `tool_id` raises
`UnauthorizedRequestError(f'Unauthorized user during {tool_id} LTI launch
(user_id = {user_id})')`; otherwise the function returns
`tolerant_jsonify({'message': f'User {user_id} failed to authenticate.'},
403)`. -/
def start_login_session (authenticated : Bool) (user_id : Int)
    (redirect_path tool_id : Option String) : LoginOutcome :=
  if authenticated then LoginOutcome.success (strOptTruthy redirect_path)
  else if strOptTruthy tool_id then
    LoginOutcome.raised
      ("Unauthorized user during " ++ tool_id.getD "" ++
        " LTI launch (user_id = " ++ toString user_id ++ ")")
  else
    LoginOutcome.json ("User " ++ toString user_id ++ " failed to authenticate.") 403

/-! Example objects shared by the closed witness instances below. -/

/-- A course with id 1. -/
def exCourse : Course := ⟨1⟩

/-- A teaching, non-admin user (id 1) in course 1. -/
def exTeacher : User := ⟨true, 1, 99, false, true, exCourse, []⟩

/-- A non-teaching, non-admin user (id 1) in course 1. -/
def exMember : User := ⟨true, 1, 99, false, false, exCourse, []⟩

/-- An admin user (id 1) in course 1. -/
def exAdmin : User := ⟨true, 1, 99, true, true, exCourse, []⟩

/-- An admin, teaching user whose resolved id is 0 (falsy). -/
def exZeroIdAdmin : User := ⟨true, 0, 99, true, true, exCourse, []⟩

/-- A non-admin user in course 1 who owns asset 5. -/
def exViewer1 : User := ⟨true, 2, 99, false, false, exCourse, [5]⟩

/-- A non-admin user in course 1 who owns nothing. -/
def exViewer2 : User := ⟨true, 3, 99, false, false, exCourse, []⟩

/-- A visible asset (id 5) in course 1 owned by user 2. -/
def exAsset : Asset := ⟨5, 1, true, [⟨2⟩]⟩

/-- A visible asset (id 6) in course 2 owned by user 1. -/
def exForeignAsset : Asset := ⟨6, 2, true, [⟨1⟩]⟩

/-- A comment authored by user 1. -/
def exComment : Comment := ⟨1⟩

/-- A database holding user 1 (plain student role) and whiteboard 1 of
course 1, soft-deleted, with user 1 a recorded whiteboard member. -/
def exDeletedDB : DB := ⟨[⟨1, "Student"⟩], [⟨1, 1, true⟩], [(1, 1)]⟩

/-- C1: with `FEATURE_FLAG_WHITEBOARDS` off, `can_access_whiteboard` returns
false for every user and every whiteboard id, admins included — the flag-off
check precedes and overrides the admin short-circuit. -/
theorem flag_off_denies_whiteboard_even_admins (cfg : Config) (db : DB)
    (user : Option User) (whiteboard_id : Option Int)
    (h : cfg.feature_flag_whiteboards = false) :
    can_access_whiteboard cfg db user whiteboard_id = false := by
  simp [can_access_whiteboard, h]

/-- C1 witness: flag off, admin user, concrete whiteboard — denied. -/
theorem flag_off_denies_whiteboard_even_admins_inst :
    can_access_whiteboard ⟨false⟩ exDeletedDB (some exAdmin) (some 1) = false :=
  flag_off_denies_whiteboard_even_admins ⟨false⟩ exDeletedDB (some exAdmin) (some 1) rfl

/-- C2: for a non-None, non-admin user whose course equals the asset's
course, `can_view_asset` is true iff the asset is visible or its id appears
in the AMBIENT current-session user's asset list; holding that ambient list
fixed, the result is identical for any two such `user` arguments, whatever
their own asset ownership. -/
theorem view_asset_reads_ambient_user (asset : Asset) (u1 u2 : User)
    (cur : List Int)
    (h1a : u1.is_admin = false) (h2a : u2.is_admin = false)
    (h1c : u1.course.id = asset.course_id) (h2c : u2.course.id = asset.course_id) :
    can_view_asset asset (some u1) cur
        = (asset.visible || decide (asset.id ∈ cur)) ∧
      can_view_asset asset (some u1) cur = can_view_asset asset (some u2) cur := by
  constructor <;> simp [can_view_asset, h1a, h2a, h1c, h2c]

/-- C2 witness: two non-admin users of the asset's course, one owning the
asset and one owning nothing, get the same answer for the same ambient
session list. -/
theorem view_asset_reads_ambient_user_inst :
    can_view_asset exAsset (some exViewer1) [] = can_view_asset exAsset (some exViewer2) [] :=
  (view_asset_reads_ambient_user exAsset exViewer1 exViewer2 [] rfl rfl rfl rfl).2

/-- C4: for a present user, `can_update_asset` is `some true` iff the courses
match and (teaching or admin or the resolved id is among the asset's owner
ids); whenever the courses differ it is `some false` regardless of role or
ownership. -/
theorem update_asset_characterization (u : User) (asset : Asset) :
    (can_update_asset (some u) asset = some true ↔
      u.course.id = asset.course_id ∧
        (u.is_teaching = true ∨ u.is_admin = true ∨
          resolveId u ∈ asset.users.map Owner.id)) ∧
    (u.course.id ≠ asset.course_id → can_update_asset (some u) asset = some false) := by
  constructor
  · simp [can_update_asset, is_teaching, is_admin, or_assoc]
  · intro h
    simp [can_update_asset, h]

/-- C4 witness: an owner with admin and teaching roles is still refused on an
asset of a different course. -/
theorem update_asset_characterization_inst :
    can_update_asset (some exAdmin) exForeignAsset = some false :=
  (update_asset_characterization exAdmin exForeignAsset).2 (by decide)

/-- C9: `can_update_asset` with a missing user faults (modelled `none`)
because it dereferences `user.course`, while `can_view_asset` and the two
comment predicates return a falsy result for a missing user without
dereferencing it. -/
theorem missing_user_fault_asymmetry (asset : Asset) (c : Comment)
    (cur : List Int) :
    can_update_asset none asset = none ∧
      can_view_asset asset none cur = false ∧
      (can_delete_comment c none).truthy = false ∧
      (can_update_comment c none).truthy = false :=
  ⟨rfl, rfl, rfl, rfl⟩

/-- C9 witness: the asymmetry at a concrete asset, comment and session
list. -/
theorem missing_user_fault_asymmetry_inst :
    can_update_asset none exAsset = none ∧
      can_view_asset exAsset none [] = false ∧
      (can_delete_comment exComment none).truthy = false ∧
      (can_update_comment exComment none).truthy = false :=
  missing_user_fault_asymmetry exAsset exComment []

/-- C3: on a soft-deleted whiteboard, a non-admin, non-teaching user with a
truthy resolved id is denied even as a recorded member (the query demands
`deleted_at IS NULL`), while a teaching user can still be granted access (the
filter is not added): the second conjunct exhibits a teaching, non-admin
member of the soft-deleted whiteboard 1 who is granted access. -/
theorem deleted_whiteboard_teaching_only (cfg : Config) (db : DB) (u : User)
    (whiteboard_id : Option Int)
    (hadm : u.is_admin = false)
    (hid : resolveId u ≠ 0)
    (hteach : u.is_teaching = false)
    (hdel : ∀ w ∈ db.whiteboards, some w.id = whiteboard_id → w.deleted = true) :
    can_access_whiteboard cfg db (some u) whiteboard_id = false ∧
      can_access_whiteboard ⟨true⟩ exDeletedDB (some exTeacher) (some 1) = true := by
  refine ⟨?_, by decide⟩
  cases hflag : cfg.feature_flag_whiteboards
  · simp [can_access_whiteboard, hflag]
  · have hq : ∀ du : DBUser, (db.whiteboards.any fun w =>
        matchesWhiteboardRow db du w (resolveId u) u.course.id whiteboard_id
          (is_teaching (some u))) = false := by
      intro du
      rw [List.any_eq_false]
      intro w hw hcontra
      simp only [matchesWhiteboardRow, is_teaching, Bool.and_eq_true] at hcontra
      have h1 : some w.id = whiteboard_id := by
        have h1b := hcontra.1.1.1.1
        rwa [beq_iff_eq] at h1b
      have h5 := hcontra.2
      rw [hteach, Bool.false_or, Bool.not_eq_true'] at h5
      exact absurd ((hdel w hw h1).symm.trans h5) (by decide)
    have hfil : (db.users.filter fun du => db.whiteboards.any fun w =>
        matchesWhiteboardRow db du w (resolveId u) u.course.id whiteboard_id
          (is_teaching (some u))) = [] := by
      rw [List.filter_eq_nil_iff]
      intro du _
      simp [hq du]
    simp [can_access_whiteboard, hflag, is_admin, hadm, hid, whiteboardQueryCount, hfil]

/-- C3 witness: the non-teaching counterpart of the same whiteboard member is
denied on the same soft-deleted whiteboard. -/
theorem deleted_whiteboard_teaching_only_inst :
    can_access_whiteboard ⟨true⟩ exDeletedDB (some exMember) (some 1) = false :=
  (deleted_whiteboard_teaching_only ⟨true⟩ exDeletedDB exMember (some 1) rfl
    (by decide) rfl (by decide)).1

/-- C5: whenever `can_access_whiteboard` denies the current session user, the
`whiteboard_access_required` wrapper returns the bare `{'status': 404}` result
no matter what the handler would do — the handler is never consulted — while
a guard such as `admin_required` returns the framework's standard unauthorized
response on denial, and the two responses differ. -/
theorem whiteboard_guard_masks_denial (cfg : Config) (db : DB)
    (current_user : Option User) (args : List (Option Int))
    (h : can_access_whiteboard cfg db current_user (extractWhiteboardId args) = false) :
    (∀ handler, whiteboard_access_required cfg db current_user handler args
        = Response.statusDict 404) ∧
      (∀ (u : User) (handler : Unit → Response), u.is_admin = false →
        admin_required u handler = Response.unauthorized) ∧
      Response.statusDict 404 ≠ Response.unauthorized := by
  refine ⟨?_, ?_, by decide⟩
  · intro handler
    simp [whiteboard_access_required, h]
  · intro u handler hu
    simp [admin_required, hu]

/-- C5 witness: with the feature flag off the guard denies a concrete call
and returns the 404-status dict. -/
theorem whiteboard_guard_masks_denial_inst :
    whiteboard_access_required ⟨false⟩ exDeletedDB (some exAdmin)
        (fun _ => Response.fromHandler 0) [some 1] = Response.statusDict 404 :=
  (whiteboard_guard_masks_denial ⟨false⟩ exDeletedDB (some exAdmin) [some 1]
    (by decide)).1 (fun _ => Response.fromHandler 0)

/-- C6: `can_delete_comment` and `can_update_comment` agree on every input,
and their shared result is truthy iff the user exists with a nonzero resolved
id and (authored the comment, or is admin, or is teaching). -/
theorem comment_predicates_agree (c : Comment) (user : Option User) :
    can_delete_comment c user = can_update_comment c user ∧
      ((can_delete_comment c user).truthy = true ↔
        ∃ u, user = some u ∧ resolveId u ≠ 0 ∧
          (c.user_id = resolveId u ∨ u.is_admin = true ∨ u.is_teaching = true)) := by
  refine ⟨rfl, ?_⟩
  cases user with
  | none => simp [can_delete_comment, PyVal.truthy]
  | some u =>
    by_cases h0 : resolveId u = 0
    · simp [can_delete_comment, h0, PyVal.truthy]
    · simp [can_delete_comment, h0, PyVal.truthy, or_assoc]

/-- C6 witness: a non-admin, non-teaching user deleting their own comment is
allowed (truthy result). -/
theorem comment_predicates_agree_inst :
    (can_delete_comment exComment (some exMember)).truthy = true :=
  (comment_predicates_agree exComment (some exMember)).2.mpr
    ⟨exMember, rfl, by decide, Or.inl (by decide)⟩

/-- C7 counterexample: a supplied but empty `tool_id` is falsy, so the failed
login RETURNS the 403 JSON response instead of raising, contradicting "if a
tool_id was supplied it raises". -/
theorem login_failure_empty_tool_id_returns_403 :
    start_login_session false 7 none (some "") =
      LoginOutcome.json "User 7 failed to authenticate." 403 := rfl

/-- C7 (amended): when `start_login_session` fails to authenticate, a truthy
(non-empty) `tool_id` makes it raise the UnauthorizedRequestError whose
message carries the tool id and the login session's user id, while a falsy
`tool_id` (absent or empty) makes it return a 403 JSON response whose message
contains the user id. -/
theorem login_failure_behavior (authenticated : Bool) (user_id : Int)
    (redirect_path tool_id : Option String) (hauth : authenticated = false) :
    (strOptTruthy tool_id = true →
      start_login_session authenticated user_id redirect_path tool_id =
        LoginOutcome.raised ("Unauthorized user during " ++ tool_id.getD "" ++
          " LTI launch (user_id = " ++ toString user_id ++ ")")) ∧
    (strOptTruthy tool_id = false →
      ∃ pre post : String,
        start_login_session authenticated user_id redirect_path tool_id =
          LoginOutcome.json (pre ++ toString user_id ++ post) 403) := by
  subst hauth
  constructor
  · intro ht
    simp [start_login_session, ht]
  · intro ht
    exact ⟨"User ", " failed to authenticate.", by simp [start_login_session, ht]⟩

/-- C7 witness: a failed login during a named LTI launch raises with the tool
id and user id in the message. -/
theorem login_failure_behavior_inst :
    start_login_session false 7 none (some "whiteboards") =
      LoginOutcome.raised "Unauthorized user during whiteboards LTI launch (user_id = 7)" :=
  (login_failure_behavior false 7 none (some "whiteboards") rfl).1 rfl

/-- C8: with the flag off, both enum accessors return exactly the tags not
containing the substring "whiteboard" (and agree with each other); with the
flag on, both return the underlying registry contents unchanged. -/
theorem enum_accessors_filter_whiteboard (cfg : Config) (enums : List String) :
    (cfg.feature_flag_whiteboards = false →
      (∀ e, e ∈ activities_type_enums cfg enums ↔
        e ∈ enums ∧ containsSub e "whiteboard" = false) ∧
      activities_type_enums cfg enums = assets_type_enums cfg enums) ∧
    (cfg.feature_flag_whiteboards = true →
      activities_type_enums cfg enums = enums ∧
        assets_type_enums cfg enums = enums) := by
  constructor
  · intro h
    refine ⟨?_, rfl⟩
    intro e
    simp [activities_type_enums, _filter_per_feature_flag, h, List.mem_filter]
  · intro h
    simp [activities_type_enums, assets_type_enums, _filter_per_feature_flag, h]

/-- C8 witness: with the flag off, membership of "whiteboard" in the filtered
registry is equivalent to it not containing itself — hence it is excluded. -/
theorem enum_accessors_filter_whiteboard_inst :
    "whiteboard" ∈ activities_type_enums ⟨false⟩ ["file", "link", "whiteboard"] ↔
      "whiteboard" ∈ ["file", "link", "whiteboard"] ∧
        containsSub "whiteboard" "whiteboard" = false :=
  ((enum_accessors_filter_whiteboard ⟨false⟩ ["file", "link", "whiteboard"]).1 rfl).1
    "whiteboard"

/-- C10: a user whose resolved id is 0 (falsy) is treated as having no id:
if also non-admin, `can_access_whiteboard` is false for every configuration
and database state (the query result is never consulted), and the comment
predicates give a falsy result for every comment regardless of authorship,
admin flag or teaching role. -/
theorem falsy_resolved_id_denies (u : User) (h0 : resolveId u = 0) :
    (u.is_admin = false →
      ∀ (cfg : Config) (db : DB) (whiteboard_id : Option Int),
        can_access_whiteboard cfg db (some u) whiteboard_id = false) ∧
      ∀ c : Comment, (can_delete_comment c (some u)).truthy = false ∧
        (can_update_comment c (some u)).truthy = false := by
  constructor
  · intro hadm cfg db whiteboard_id
    cases hflag : cfg.feature_flag_whiteboards
    · simp [can_access_whiteboard, hflag]
    · simp [can_access_whiteboard, hflag, is_admin, hadm, h0]
  · intro c
    exact ⟨by simp [can_delete_comment, h0, PyVal.truthy],
      by simp [can_update_comment, h0, PyVal.truthy]⟩

/-- C10 witness: an admin, teaching user with resolved id 0 still gets a
falsy comment-deletion result. -/
theorem falsy_resolved_id_denies_inst :
    (can_delete_comment exComment (some exZeroIdAdmin)).truthy = false :=
  ((falsy_resolved_id_denies exZeroIdAdmin rfl).2 exComment).1
